import Mathlib

/-!
Verification of the selection and result-request composition layer of a
finite-element post-processing package (pydpf-post).

The definitions below are a shallow embedding of the Python sources:

* `get_result`, `temporal_tot` — `ModalMechanicalSimulation._get_result`
  (`src/ansys/dpf/post/modal_mechanical_simulation.py`, lines 224-286);
* `get_result_workflow` — `ModalMechanicalSimulation._get_result_workflow`
  (same file, lines 60-124), with the parts living in modules that are not
  part of the available sources modelled from the specification (each such
  definition carries a doc comment saying so);
* `dataframe_init`, `dataframe_len`, `dataframe_animate` — `DataFrame`
  (`src/ansys/dpf/post/dataframe.py`);
* `load_solution` — `ansys/dpf/post/post_utility.py`;
* `SpatialSelection` — the selection component (module absent from the
  available sources; modelled from the specification and from
  `tests/test_selection.py`).

Python `None`-able arguments become `Option`/bespoke inductives that also
record Python truthiness where the source relies on it.  Fallible calls
return `Except PyError`.
-/

namespace PydpfPost

/-- Python exception values raised by this layer.  Only the class and the
message matter to the verified properties. -/
inductive PyError where
  | valueError (msg : String)
  | configurationError (msg : String)
  | attributeError (msg : String)
  | lookupError (msg : String)
  | exceptionError (msg : String)
deriving Repr, DecidableEq

/-- The message string carried by an error value. -/
def PyError.message : PyError → String
  | .valueError m => m
  | .configurationError m => m
  | .attributeError m => m
  | .lookupError m => m
  | .exceptionError m => m

/-- A Python argument of type `Union[int, List[int], None]`
(`set_ids`, `modes` in `_get_result`). -/
inductive IntsArg where
  | none
  | single (i : Int)
  | list (l : List Int)
deriving Repr, DecidableEq

/-- Python `arg is not None`. -/
def IntsArg.isNotNone : IntsArg → Bool
  | .none => false
  | _ => true

/-- Python truthiness of such an argument: `None`, `0` and `[]` are falsy. -/
def IntsArg.isTruthy : IntsArg → Bool
  | .none => false
  | .single i => i != 0
  | .list l => !l.isEmpty

/-- A Python argument of type `Union[float, List[float], None]`
(`frequencies` in `_get_result`); floats are modelled as rationals. -/
inductive FloatsArg where
  | none
  | single (x : Rat)
  | list (l : List Rat)
deriving Repr, DecidableEq

/-- Python `arg is not None`. -/
def FloatsArg.isNotNone : FloatsArg → Bool
  | .none => false
  | _ => true

/-- A Python argument of type `Union[List[str], str, None]`
(`named_selections` in `_get_result`). -/
inductive NamesArg where
  | none
  | single (s : String)
  | list (l : List String)
deriving Repr, DecidableEq

/-- Python `arg is not None`. -/
def NamesArg.isNotNone : NamesArg → Bool
  | .none => false
  | _ => true

/-- A Python argument of type `Union[bool, List[int]]` with default `False`
(`skin` and `external_layer` in `_get_result`). -/
inductive BoolOrIntsArg where
  | bool (b : Bool)
  | list (l : List Int)
deriving Repr, DecidableEq

/-- Python `arg is not False`: anything but the literal `False` requests the
option, including an empty element list. -/
def BoolOrIntsArg.requested : BoolOrIntsArg → Bool
  | .bool b => b
  | .list _ => true

/-- One entry of an `expand_cyclic` list: `Union[int, List[int]]`. -/
inductive SectorsEntry where
  | int (i : Int)
  | list (l : List Int)
deriving Repr, DecidableEq

/-- `True` if the entry is a plain integer (`isinstance(v, int)`). -/
def SectorsEntry.isInt : SectorsEntry → Bool
  | .int _ => true
  | .list _ => false

/-- The entry as a plain integer, when it is one. -/
def SectorsEntry.asInt : SectorsEntry → Option Int
  | .int i => some i
  | .list _ => Option.none

/-- The list of sector ids denoted by the entry. -/
def SectorsEntry.toIds : SectorsEntry → List Int
  | .int i => [i]
  | .list l => l

/-- The `expand_cyclic` argument:
`Union[bool, List[Union[int, List[int]]]]`, default `True` on every
result-extraction method of `ModalMechanicalSimulation`. -/
inductive ExpandCyclic where
  | bool (b : Bool)
  | list (l : List SectorsEntry)
deriving Repr, DecidableEq

/-- Python `expand_cyclic is not False`. -/
def ExpandCyclic.isNotFalse : ExpandCyclic → Bool
  | .bool b => b
  | .list _ => true

/-- Result locations (`ansys.dpf.post.locations`). -/
inductive Location where
  | nodal
  | elemental
  | elemental_nodal
  | faces
deriving Repr, DecidableEq

/-- The result category enum
(`ansys.dpf.post.result_workflows._component_helper.ResultCategory`). -/
inductive ResultCategory where
  | scalar
  | vector
  | matrix
  | principal
  | equivalent
deriving Repr, DecidableEq

/-- A resolved scoping: concrete entity ids plus a location tag. -/
structure Scoping where
  ids : List Int
  location : Location
deriving Repr, DecidableEq

/-- The mesh data a selection is resolved against: node and element ids and
the named selections with the node ids they resolve to. -/
structure SimulationMesh where
  node_ids : List Int
  element_ids : List Int
  named_selections : List (String × List Int)
deriving Repr, DecidableEq

/-- A simulation seen by the selection layer: its mesh. -/
structure SimulationModel where
  mesh : SimulationMesh
deriving Repr, DecidableEq

/-- Modelled from the spec: the spatial criterion held by a
`SpatialSelection` (module `ansys.dpf.post.selection` is not part of the
available sources).  One of explicit node ids, explicit element ids, or a
named-selection reference with a location (spec section 3,
"SpatialSelectionCriterion"). -/
inductive SpatialCriterion where
  | nodes (ids : List Int)
  | elements (ids : List Int)
  | named_selection (nm : String) (location : Location)
deriving Repr, DecidableEq

/-- Modelled from the spec: a `SpatialSelection` holds at most one spatial
criterion (spec section 4.1). -/
structure SpatialSelection where
  criterion : Option SpatialCriterion
deriving Repr, DecidableEq

/-- A freshly constructed `SpatialSelection()` holds no criterion. -/
def SpatialSelection.empty : SpatialSelection := { criterion := Option.none }

/-- Modelled from the spec: `SpatialSelection.select_nodes(ids)` sets the
spatial criterion; a second criterion-setting call fails with
ConfigurationError (spec section 4.1: "selections are mutually
exclusive"). -/
def SpatialSelection.select_nodes (s : SpatialSelection) (ids : List Int) :
    Except PyError SpatialSelection :=
  match s.criterion with
  | some _ => .error (.configurationError "selections are mutually exclusive")
  | Option.none => .ok { criterion := some (.nodes ids) }

/-- Modelled from the spec: `SpatialSelection._evaluate_on(simulation)`
resolves the held criterion against the simulation into a `Scoping`.
Explicit ids are passed through unchanged (spec section 4.1: "this layer
must pass ids through without inventing silent clamping"; out-of-mesh ids
are rejected engine-side, not here); a named selection is looked up in the
mesh and missing names fail with LookupError; with no criterion the whole
mesh is selected nodally. -/
def SpatialSelection.evaluate_on (s : SpatialSelection) (sim : SimulationModel) :
    Except PyError Scoping :=
  match s.criterion with
  | some (.nodes ids) => .ok { ids := ids, location := .nodal }
  | some (.elements ids) => .ok { ids := ids, location := .elemental }
  | some (.named_selection nm loc) =>
    match sim.mesh.named_selections.find? (fun p => p.1 == nm) with
    | some p => .ok { ids := p.2, location := loc }
    | Option.none => .error (.lookupError ("no named selection " ++ nm))
  | Option.none => .ok { ids := sim.mesh.node_ids, location := .nodal }

/-- A `Selection` argument value: the pair of an optional spatial and an
optional temporal criterion (spec section 3, "Selection"); only its
non-`None`-ness is consulted by `_get_result`. -/
structure Selection where
  spatial_selection : SpatialSelection
  time_freq_sets : Option (List Int)
deriving Repr, DecidableEq

/-- The model/analysis state of a simulation relevant to result requests:
whether the analysis is cyclic symmetric and with how many stages. -/
structure ModelInfo where
  is_cyclic : Bool
  num_stages : Nat
deriving Repr, DecidableEq

/-- The keyword arguments of `ModalMechanicalSimulation._get_result`, with
their Python types and the given source defaults (`modal` defaults
`expand_cyclic` to `True`). -/
structure GetResultArgs where
  components : Option (List String)
  norm : Bool
  node_ids : Option (List Int)
  element_ids : Option (List Int)
  frequencies : FloatsArg
  set_ids : IntsArg
  all_sets : Bool
  modes : IntsArg
  named_selections : NamesArg
  selection : Option Selection
  expand_cyclic : ExpandCyclic
  phase_angle_cyclic : Option Rat
  external_layer : BoolOrIntsArg
  skin : BoolOrIntsArg
deriving Repr, DecidableEq

/-- The defaults of `_get_result` and of every public result method of
`ModalMechanicalSimulation`: everything `None`/`False` except
`expand_cyclic=True` and `skin=False`, `external_layer=False`. -/
def GetResultArgs.defaults : GetResultArgs where
  components := Option.none
  norm := false
  node_ids := Option.none
  element_ids := Option.none
  frequencies := .none
  set_ids := .none
  all_sets := false
  modes := .none
  named_selections := .none
  selection := Option.none
  expand_cyclic := .bool true
  phase_angle_cyclic := Option.none
  external_layer := .bool false
  skin := .bool false

/-- The count `tot` computed at `modal_mechanical_simulation.py:225-231`:
how many of the mutually exclusive time-like arguments were supplied with a
non-default value. -/
def temporal_tot (a : GetResultArgs) : Nat :=
  (a.set_ids.isNotNone).toNat + (a.all_sets).toNat +
    (a.frequencies.isNotNone).toNat + (a.modes.isNotNone).toNat +
    (a.selection.isSome).toNat

/-- The error message raised at `modal_mechanical_simulation.py:233-236`. -/
def temporal_exclusive_msg : String :=
  "Arguments all_sets, selection, set_ids, frequencies, and modes are mutually exclusive."

/-- Modelled from the spec: the count of mutually exclusive spatial
arguments checked by `Simulation._build_selection` (module
`ansys.dpf.post.simulation` is not part of the available sources; spec
section 6 declares `node_ids`, `element_ids`, `named_selections` and
`selection` a mutually exclusive group). -/
def spatial_tot (a : GetResultArgs) : Nat :=
  (a.node_ids.isSome).toNat + (a.element_ids.isSome).toNat +
    (a.named_selections.isNotNone).toNat + (a.selection.isSome).toNat

/-- Modelled from the spec: the ValueError message for a spatial-argument
conflict, listing the conflicting arguments (spec sections 6 and 8). -/
def spatial_exclusive_msg : String :=
  "Arguments selection, named_selections, element_ids, and node_ids are mutually exclusive."

/-- How the spatial criterion of a result request was resolved by
`_build_selection`. -/
inductive SpatialResolution where
  | fromSelection (s : Selection)
  | namedSelections (n : NamesArg)
  | elements (ids : List Int)
  | nodes (ids : List Int)
  | externalLayer (spec : BoolOrIntsArg)
  | skinOf (spec : BoolOrIntsArg)
  | wholeMesh
deriving Repr, DecidableEq

/-- The time-like request recorded in a built selection. -/
inductive TemporalRequest where
  | allSets
  | fromSelection
  | times (f : FloatsArg)
  | setIds (s : IntsArg)
deriving Repr, DecidableEq

/-- The selection produced by `_build_selection`: the resolved spatial
criterion, the time-like request, and whether a companion reduced mesh is
also output (`outputs_mesh`, true exactly when skin or external layer is
requested — spec section 4.1). -/
structure BuiltSelection where
  spatial : SpatialResolution
  temporal : TemporalRequest
  outputs_mesh : Bool
deriving Repr, DecidableEq

/-- The spatial resolution chosen from the supplied arguments, after the
exclusivity check guarantees at most one is present. -/
def spatial_resolution_of (a : GetResultArgs) : SpatialResolution :=
  match a.selection with
  | some s => .fromSelection s
  | Option.none =>
    if a.named_selections.isNotNone then .namedSelections a.named_selections
    else
      match a.element_ids with
      | some ids => .elements ids
      | Option.none =>
        match a.node_ids with
        | some ids => .nodes ids
        | Option.none =>
          if a.external_layer.requested then .externalLayer a.external_layer
          else if a.skin.requested then .skinOf a.skin
          else .wholeMesh

/-- Modelled from the spec: `Simulation._build_selection` (module
`ansys.dpf.post.simulation` is not part of the available sources).  It
first enforces the spatial mutual-exclusivity group with a ValueError
(spec sections 6 and 8), then records the resolved spatial criterion, the
time-like request (`all_sets` flag, the caller's selection, explicit
times, or the set ids handed over by `_get_result`), and the
`outputs_mesh` flag. -/
def build_selection (a : GetResultArgs) (set_ids : IntsArg) :
    Except PyError BuiltSelection :=
  if spatial_tot a > 1 then .error (.valueError spatial_exclusive_msg)
  else
    .ok { spatial := spatial_resolution_of a
        , temporal :=
            if a.all_sets then .allSets
            else if a.selection.isSome then .fromSelection
            else if a.frequencies.isNotNone then .times a.frequencies
            else .setIds set_ids
        , outputs_mesh := a.skin.requested || a.external_layer.requested }

/-- The sector specification wired to the cyclic-expansion stage. -/
inductive SectorsSpec where
  | flat (ids : List Int)
  | perStage (stages : List (List Int))
deriving Repr, DecidableEq

/-- The cyclic-expansion wiring of an assembled workflow: the value
connected to the read-cyclic pin (`3` to expand, `1` not to; absent on a
non-cyclic model), the sectors to expand, and the phase angle. -/
structure CyclicWiring where
  read_cyclic : Option Int
  sectors_to_expand : Option SectorsSpec
  phase_angle : Option Rat
deriving Repr, DecidableEq

/-- The sector specification denoted by an `expand_cyclic` list: a
non-empty list all of whose entries are plain integers is a flat sector
list; a list containing sublists gives the sectors per stage (an integer
entry standing for the one-sector stage it denotes). -/
def sectors_spec_of : ExpandCyclic → Option SectorsSpec
  | .bool _ => Option.none
  | .list l =>
    if l.isEmpty then Option.none
    else if l.all SectorsEntry.isInt then some (.flat (l.filterMap SectorsEntry.asInt))
    else some (.perStage (l.map SectorsEntry.toIds))

/-- Modelled from the spec: the cyclic-expansion wiring performed during
workflow assembly (module `ansys.dpf.post.result_workflows` is not part of
the available sources).  The sector-list handling follows the in-source
contract of `ModalMechanicalSimulation`: the `expand_cyclic` docstrings
(`modal_mechanical_simulation.py:194-199`) state that a list of sector
numbers selects sectors to expand and a list of lists gives sectors per
stage, and the doctests of `displacement`
(`modal_mechanical_simulation.py:458-531`) demonstrate `True`, `False`,
flat lists — on single-stage and on multi-stage models alike — and
lists of lists, all succeeding.  The spec's additional claim that a flat
list on a multi-stage model raises ValueError has no support in the
sources and contradicts those doctests, so it is not modelled.  The stage
count of the model is not consulted. -/
def connect_cyclic_inputs (model : ModelInfo) (expand_cyclic : ExpandCyclic)
    (phase_angle_cyclic : Option Rat) : CyclicWiring :=
  if !model.is_cyclic then
    { read_cyclic := Option.none, sectors_to_expand := Option.none
    , phase_angle := Option.none }
  else if expand_cyclic.isNotFalse then
    { read_cyclic := some 3, sectors_to_expand := sectors_spec_of expand_cyclic
    , phase_angle := phase_angle_cyclic }
  else
    { read_cyclic := some 1, sectors_to_expand := Option.none
    , phase_angle := Option.none }

/-- The mesh-reduction stage of an assembled workflow. -/
inductive MeshReduction where
  | skinOf (spec : BoolOrIntsArg)
  | externalLayer (spec : BoolOrIntsArg)
deriving Repr, DecidableEq

/-- The mesh reduction requested by the arguments (skin wins only when
requested; both `False` means none). -/
def mesh_reduction_of (a : GetResultArgs) : Option MeshReduction :=
  if a.skin.requested then some (.skinOf a.skin)
  else if a.external_layer.requested then some (.externalLayer a.external_layer)
  else Option.none

/-- An assembled (not executed) result workflow: the elementary extraction
parameters and the optional cyclic-expansion and mesh-reduction stages. -/
structure WorkflowModel where
  base_name : String
  location : Location
  category : ResultCategory
  norm : Bool
  cyclic : CyclicWiring
  mesh_reduction : Option MeshReduction
deriving Repr, DecidableEq

/-- `ModalMechanicalSimulation._get_result_workflow`
(`modal_mechanical_simulation.py:60-124`): assembles the result workflow
without executing it, recording the elementary extraction parameters, the
cyclic wiring and the mesh-reduction stage.  It performs no
mutual-exclusion check of its own: in particular a requested mesh
reduction is combined with cyclic expansion, not rejected (the in-source
example `examples/02-Cyclic-examples/04-cyclic-mesh-skin.py`, lines 50 and
83-89, runs `skin=True` together with cyclic expansion on a cyclic modal
analysis), and no ConfigurationError class exists in the sources. -/
def get_result_workflow (model : ModelInfo) (base_name : String)
    (location : Location) (category : ResultCategory) (a : GetResultArgs)
    (_built : BuiltSelection) : Except PyError WorkflowModel :=
  .ok { base_name := base_name
      , location := location
      , category := category
      , norm := a.norm
      , cyclic := connect_cyclic_inputs model a.expand_cyclic a.phase_angle_cyclic
      , mesh_reduction := mesh_reduction_of a }

/-- The field container returned by the engine: one entry per field. -/
structure FieldsContainerModel where
  fields : List Int
deriving Repr, DecidableEq

/-- The type of the workflow-assembly step, abstracted so that theorems can
state that validation errors occur before any workflow is assembled.  The
concrete instantiation used throughout is `get_result_workflow`. -/
abbrev Builder :=
  ModelInfo → String → Location → ResultCategory → GetResultArgs →
    BuiltSelection → Except PyError WorkflowModel

/-- The external engine executing an assembled workflow
(`wf.get_output(...)` at `modal_mechanical_simulation.py:272`), abstracted
as a function so that theorems can quantify over it. -/
abbrev Engine := WorkflowModel → Except PyError FieldsContainerModel

/-- A successful result request: the built selection, the assembled
workflow and the evaluated field container. -/
structure ResultOutcome where
  built : BuiltSelection
  workflow : WorkflowModel
  fields_container : FieldsContainerModel
deriving Repr, DecidableEq

/-- `ModalMechanicalSimulation._get_result`
(`modal_mechanical_simulation.py:224-286`): first the eager
mutual-exclusivity check over the time-like arguments raising ValueError
(lines 225-236); with none of them supplied, `set_ids` defaults to `1`
(lines 237-238); then the selection is built
(`set_ids=set_ids if set_ids else modes`, line 244), the workflow is
assembled by `builder` and evaluated by `engine`. -/
def get_result (builder : Builder) (engine : Engine) (model : ModelInfo)
    (base_name : String) (location : Location) (category : ResultCategory)
    (a : GetResultArgs) : Except PyError ResultOutcome :=
  let tot := temporal_tot a
  if tot > 1 then
    .error (.valueError temporal_exclusive_msg)
  else
    let set_ids : IntsArg := if tot = 0 then .single 1 else a.set_ids
    Except.bind (build_selection a (if set_ids.isTruthy then set_ids else a.modes))
      fun built =>
        Except.bind (builder model base_name location category a built) fun wf =>
          Except.bind (engine wf) fun fc =>
            .ok { built := built, workflow := wf, fields_container := fc }

/-- `True` exactly when the call raised a ValueError. -/
def raisesValueError (r : Except PyError ResultOutcome) : Bool :=
  match r with
  | .error (.valueError _) => true
  | _ => false

/-- `True` exactly when the call returned a result. -/
def resultIsOk (r : Except PyError ResultOutcome) : Bool :=
  match r with
  | .ok _ => true
  | _ => false

/-- `True` exactly when the call raised a ConfigurationError. -/
def raisesConfigurationError (r : Except PyError ResultOutcome) : Bool :=
  match r with
  | .error (.configurationError _) => true
  | _ => false

/-! The table of all 47 public result-extraction methods of
`ModalMechanicalSimulation`, with per-method data transcribed from their
`_get_result` forwarding calls: the `base_name`, the `location` (the
source default `locations.elemental_nodal` for methods exposing a
`location` parameter), the `category`, and the source default of their
`expand_cyclic` parameter. -/

/-- One public result-extraction method of the modal simulation facade. -/
structure ModalMethod where
  nm : String
  base_name : String
  location : Location
  category : ResultCategory
  expand_cyclic_default : ExpandCyclic
deriving Repr, DecidableEq

/-- All public result-extraction methods of `ModalMechanicalSimulation`
(`modal_mechanical_simulation.py:288-4777`), in source order. -/
def modal_result_methods : List ModalMethod :=
  [ ⟨"displacement", "U", .nodal, .vector, .bool true⟩
  , ⟨"stress", "S", .elemental_nodal, .matrix, .bool true⟩
  , ⟨"stress_elemental", "S", .elemental, .matrix, .bool true⟩
  , ⟨"stress_nodal", "S", .nodal, .matrix, .bool true⟩
  , ⟨"stress_principal", "S", .elemental_nodal, .principal, .bool true⟩
  , ⟨"stress_principal_elemental", "S", .elemental, .principal, .bool true⟩
  , ⟨"stress_principal_nodal", "S", .nodal, .principal, .bool true⟩
  , ⟨"stress_eqv_von_mises", "S", .elemental_nodal, .equivalent, .bool true⟩
  , ⟨"stress_eqv_von_mises_elemental", "S", .elemental, .equivalent, .bool true⟩
  , ⟨"stress_eqv_von_mises_nodal", "S", .nodal, .equivalent, .bool true⟩
  , ⟨"elastic_strain", "EPEL", .elemental_nodal, .matrix, .bool true⟩
  , ⟨"elastic_strain_nodal", "EPEL", .nodal, .matrix, .bool true⟩
  , ⟨"elastic_strain_elemental", "EPEL", .elemental, .matrix, .bool true⟩
  , ⟨"elastic_strain_principal", "EPEL", .elemental_nodal, .principal, .bool true⟩
  , ⟨"elastic_strain_principal_nodal", "EPEL", .nodal, .principal, .bool true⟩
  , ⟨"elastic_strain_principal_elemental", "EPEL", .elemental, .principal, .bool true⟩
  , ⟨"elastic_strain_eqv_von_mises", "EPEL", .elemental_nodal, .equivalent, .bool true⟩
  , ⟨"elastic_strain_eqv_von_mises_elemental", "EPEL", .elemental, .equivalent, .bool true⟩
  , ⟨"elastic_strain_eqv_von_mises_nodal", "EPEL", .nodal, .equivalent, .bool true⟩
  , ⟨"plastic_state_variable", "ENL_PSV", .elemental_nodal, .scalar, .bool true⟩
  , ⟨"plastic_state_variable_elemental", "ENL_PSV", .elemental, .scalar, .bool true⟩
  , ⟨"plastic_state_variable_nodal", "ENL_PSV", .nodal, .scalar, .bool true⟩
  , ⟨"plastic_strain", "EPPL", .elemental_nodal, .matrix, .bool true⟩
  , ⟨"plastic_strain_nodal", "EPPL", .nodal, .matrix, .bool true⟩
  , ⟨"plastic_strain_elemental", "EPPL", .elemental, .matrix, .bool true⟩
  , ⟨"plastic_strain_principal", "EPPL", .elemental_nodal, .principal, .bool true⟩
  , ⟨"plastic_strain_principal_nodal", "EPPL", .nodal, .principal, .bool true⟩
  , ⟨"plastic_strain_principal_elemental", "EPPL", .elemental, .principal, .bool true⟩
  , ⟨"plastic_strain_eqv", "EPPL", .elemental_nodal, .equivalent, .bool true⟩
  , ⟨"plastic_strain_eqv_nodal", "EPPL", .nodal, .equivalent, .bool true⟩
  , ⟨"plastic_strain_eqv_elemental", "EPPL", .elemental, .equivalent, .bool true⟩
  , ⟨"reaction_force", "RF", .nodal, .vector, .bool true⟩
  , ⟨"elemental_volume", "ENG_VOL", .elemental, .scalar, .bool true⟩
  , ⟨"elemental_mass", "ElementalMass", .elemental, .scalar, .bool true⟩
  , ⟨"element_centroids", "centroids", .elemental, .scalar, .bool true⟩
  , ⟨"thickness", "thickness", .elemental, .scalar, .bool true⟩
  , ⟨"element_orientations", "EUL", .elemental_nodal, .scalar, .bool true⟩
  , ⟨"element_orientations_elemental", "EUL", .elemental, .scalar, .bool true⟩
  , ⟨"element_orientations_nodal", "EUL", .nodal, .scalar, .bool true⟩
  , ⟨"hydrostatic_pressure", "ENL_HPRES", .elemental_nodal, .scalar, .bool true⟩
  , ⟨"hydrostatic_pressure_nodal", "ENL_HPRES", .nodal, .scalar, .bool true⟩
  , ⟨"hydrostatic_pressure_elemental", "ENL_HPRES", .elemental, .scalar, .bool true⟩
  , ⟨"element_nodal_forces", "ENF", .elemental_nodal, .vector, .bool true⟩
  , ⟨"element_nodal_forces_nodal", "ENF", .nodal, .vector, .bool true⟩
  , ⟨"element_nodal_forces_elemental", "ENF", .elemental, .vector, .bool true⟩
  , ⟨"nodal_force", "F", .nodal, .vector, .bool true⟩
  , ⟨"nodal_moment", "M", .nodal, .vector, .bool true⟩ ]

/-- The argument record produced by calling a public result method without
mentioning any keyword: every method's own defaults, the method's
`expand_cyclic` default among them, forwarded verbatim to `_get_result`. -/
def default_args_of (m : ModalMethod) : GetResultArgs :=
  { GetResultArgs.defaults with expand_cyclic := m.expand_cyclic_default }

/-- Equality of fallible outcomes is decidable when it is on both sides. -/
instance {ε α : Type} [DecidableEq ε] [DecidableEq α] : DecidableEq (Except ε α)
  | .error a, .error b =>
    if h : a = b then .isTrue (h ▸ rfl)
    else .isFalse fun c => h (Except.error.inj c)
  | .error _, .ok _ => .isFalse fun c => Except.noConfusion c
  | .ok _, .error _ => .isFalse fun c => Except.noConfusion c
  | .ok a, .ok b =>
    if h : a = b then .isTrue (h ▸ rfl)
    else .isFalse fun c => h (Except.ok.inj c)

/-! ### DataFrame (`src/ansys/dpf/post/dataframe.py`) -/

/-- The `data` argument of `DataFrame.__init__`: a
`dpf.FieldsContainer`, the default `None`, or a value of any other type
(carrying its type name for the error message). -/
inductive PyDataArg where
  | fields_container (fc : FieldsContainerModel)
  | py_none
  | other (ty : String)
deriving Repr, DecidableEq

/-- The Python type name of the `data` argument, as interpolated into the
ValueError message. -/
def PyDataArg.type_name : PyDataArg → String
  | .fields_container _ => "FieldsContainer"
  | .py_none => "NoneType"
  | .other ty => ty

/-- `isinstance(data, dpf.FieldsContainer)` (`dataframe.py:38`). -/
def PyDataArg.is_fields_container : PyDataArg → Bool
  | .fields_container _ => true
  | _ => false

/-- The ValueError message of `dataframe.py:41-43` (the type name of the
rejected data is interpolated). -/
def dataframe_type_error_msg (d : PyDataArg) : String :=
  "Input data type " ++ d.type_name ++
    " is not a valid data type for DataFrame creation."

/-- The parent simulation as seen from `DataFrame.animate`: the result
of building its displacement workflow on the time scoping of the data
(`simulation._model.results.displacement.on_time_scoping(...)`,
`dataframe.py:148-150`), which is an opaque engine handle or an engine
error. -/
structure AnimSimulation where
  displacement_on_time_scoping : Except PyError Int
deriving Repr, DecidableEq

/-- A constructed `DataFrame`: the wrapped field container (`self._fc`),
the `_parent_simulation` attribute (outer `Option`: the attribute is only
set when a parent was given, `dataframe.py:54-55`; inner `Option`: what
calling the stored weak reference returns — `none` once the simulation
has been released), and the row/column index metadata. -/
structure DataFrameModel where
  fc : FieldsContainerModel
  parent_simulation : Option (Option AnimSimulation)
  index : Option (List Int)
  columns : Option (List String)
deriving Repr, DecidableEq

/-- `DataFrame.__init__` (`dataframe.py:18-59`): any `data` that is not a
`FieldsContainer` instance — including the default `None` — is rejected
with a ValueError naming the offending type; otherwise the container is
stored and the `_parent_simulation` weak reference is set only when a
parent was given (alive at construction time). -/
def dataframe_init (data : PyDataArg) (parent_simulation : Option AnimSimulation)
    (index : Option (List Int)) (columns : Option (List String)) :
    Except PyError DataFrameModel :=
  match data with
  | .fields_container fc =>
    .ok { fc := fc
        , parent_simulation :=
            match parent_simulation with
            | some sim => some (some sim)
            | Option.none => Option.none
        , index := index
        , columns := columns }
  | d => .error (.valueError (dataframe_type_error_msg d))

/-- `DataFrame.__len__` (`dataframe.py:87-89`): the length of the wrapped
field container. -/
def dataframe_len (df : DataFrameModel) : Nat :=
  df.fc.fields.length

/-- The body of the `try` block of `DataFrame.animate`
(`dataframe.py:146-150`): dereference the `_parent_simulation` attribute
(an AttributeError if it was never set, `dataframe.py:54-55`), call the
weak reference (accessing `_model` on the resulting `None` is an
AttributeError once the simulation has been released), and build the
displacement workflow (which may fail engine-side). -/
def dataframe_lookup_deform_by (df : DataFrameModel) : Except PyError Int :=
  match df.parent_simulation with
  | Option.none =>
    .error (.attributeError "DataFrame object has no attribute parent simulation")
  | some Option.none =>
    .error (.attributeError "NoneType object has no attribute model")
  | some (some sim) => sim.displacement_on_time_scoping

/-- The warning message of `dataframe.py:152-157` (the caught exception is
interpolated after the colon). -/
def animate_warning_msg (e : PyError) : String :=
  "Displacement result unavailable, unable to animate on the deformed mesh:\n"
    ++ e.message

/-- The outcome of `DataFrame.animate`: the deformation source handed to
the animation backend and the warnings emitted on the way. -/
structure AnimateCall where
  deform_by : Option Int
  emitted_warnings : List String
deriving Repr, DecidableEq

/-- `DataFrame.animate` (`dataframe.py:121-160`): with `deform=True` it
tries to retrieve a displacement workflow; every failure of that lookup is
caught, turned into a UserWarning, and the animation proceeds with
`deform_by` left `None`.  With `deform=False` no lookup is attempted. -/
def dataframe_animate (df : DataFrameModel) (deform : Bool) : AnimateCall :=
  if deform then
    match dataframe_lookup_deform_by df with
    | .ok d => { deform_by := some d, emitted_warnings := [] }
    | .error e => { deform_by := Option.none
                  , emitted_warnings := [animate_warning_msg e] }
  else { deform_by := Option.none, emitted_warnings := [] }

/-! ### `load_solution` (`ansys/dpf/post/post_utility.py`) -/

/-- `common._PhysicsType.mecanic`. -/
def physics_mecanic : String := "mecanic"

/-- `common._PhysicsType.thermal`. -/
def physics_thermal : String := "thermal"

/-- `common._AnalysisType.static`. -/
def analysis_static : String := "static"

/-- `common._AnalysisType.modal`. -/
def analysis_modal : String := "modal"

/-- `common._AnalysisType.harmonic`. -/
def analysis_harmonic : String := "harmonic"

/-- `common._AnalysisType.transient`. -/
def analysis_transient : String := "transient"

/-- What reading `result_info` from the opened data sources yields:
`none` models the attribute access raising. -/
structure ResultInfoModel where
  physics_type : Option String
  analysis_type : Option String
deriving Repr, DecidableEq

/-- Python truthiness of an optional string argument (`if not
physics_type:` treats both `None` and the empty string as absent). -/
def str_arg_truthy : Option String → Bool
  | Option.none => false
  | some s => !s.isEmpty

/-- The console warning printed at `post_utility.py:54-55` (the source
apostrophe is elided). -/
def physics_warning_msg : String :=
  "Physics type is taken as mecanic by default, please specify physics_type keyword if it is wrong"

/-- The console warning printed at `post_utility.py:62-63` (the source
apostrophe is elided). -/
def analysis_warning_msg : String :=
  "Analysis type is taken as static by default, please specify analysis_type keyword if it is wrong"

/-- The solution classes `load_solution` can instantiate. -/
inductive SolutionKind where
  | staticAnalysis
  | modalAnalysis
  | harmonicAnalysis
  | transientAnalysis
  | thermalStaticAnalysis
  | thermalTransientAnalysis
deriving Repr, DecidableEq

/-- What a `load_solution` call did: the console warnings printed and the
solution returned or the exception raised. -/
structure LoadOutcome where
  printed_warnings : List String
  result : Except PyError SolutionKind
deriving Repr, DecidableEq

/-- `load_solution` (`post_utility.py:21-85`): when `physics_type`
(respectively `analysis_type`) is not supplied, it is read from the result
info; if that read raises, the call does not fail — it prints a console
warning and falls back to the hardcoded defaults `mecanic` (respectively
`static`).  The pair then selects the solution class, unknown combinations
raising an exception. -/
def load_solution (info : ResultInfoModel) (physics_type : Option String)
    (analysis_type : Option String) : LoadOutcome :=
  let pw : String × List String :=
    if str_arg_truthy physics_type then (physics_type.getD "", [])
    else
      match info.physics_type with
      | some p => (p, [])
      | Option.none => (physics_mecanic, [physics_warning_msg])
  let aw : String × List String :=
    if str_arg_truthy analysis_type then (analysis_type.getD "", [])
    else
      match info.analysis_type with
      | some t => (t, [])
      | Option.none => (analysis_static, [analysis_warning_msg])
  let warns := pw.2 ++ aw.2
  let physics := pw.1
  let analysis := aw.1
  if physics == physics_thermal then
    if analysis == analysis_static then ⟨warns, .ok .thermalStaticAnalysis⟩
    else if analysis == analysis_transient then ⟨warns, .ok .thermalTransientAnalysis⟩
    else ⟨warns, .error (.exceptionError ("Unknown analysis type for thermal: " ++ analysis))⟩
  else if physics == physics_mecanic then
    if analysis == analysis_static then ⟨warns, .ok .staticAnalysis⟩
    else if analysis == analysis_modal then ⟨warns, .ok .modalAnalysis⟩
    else if analysis == analysis_harmonic then ⟨warns, .ok .harmonicAnalysis⟩
    else if analysis == analysis_transient then ⟨warns, .ok .transientAnalysis⟩
    else ⟨warns, .error (.exceptionError ("Unknown analysis type for mechanical: " ++ analysis))⟩
  else ⟨warns, .error (.exceptionError ("Unknown physics type: " ++ physics))⟩

/-! ### Concrete values used by witnesses and counterexamples -/

/-- An engine that succeeds on every workflow, returning a one-field
container. -/
def engine0 : Engine := fun _ => .ok { fields := [1] }

/-- A plain, non-cyclic model. -/
def model_plain : ModelInfo := { is_cyclic := false, num_stages := 0 }

/-- A two-stage cyclic-symmetric model. -/
def model_cyclic2 : ModelInfo := { is_cyclic := true, num_stages := 2 }

/-- The default arguments with `expand_cyclic=[1, 2, 3]` (a flat sector
list). -/
def args_expand_flat : GetResultArgs :=
  { GetResultArgs.defaults with expand_cyclic := .list [.int 1, .int 2, .int 3] }

/-- The default arguments with `expand_cyclic=[[1, 2], [1, 2]]` (one
sector list per stage). -/
def args_expand_nested : GetResultArgs :=
  { GetResultArgs.defaults with
      expand_cyclic := .list [.list [1, 2], .list [1, 2]] }

/-- The default arguments with `skin=True`. -/
def args_skin_true : GetResultArgs :=
  { GetResultArgs.defaults with skin := .bool true }

/-! ### Helper lemmas -/

/-- Binding a successful step reduces to the continuation. -/
theorem except_bind_ok_step {ε α β : Type} {x : α} {f : α → Except ε β} :
    Except.bind (Except.ok x) f = f x := rfl

/-- A bound fallible computation succeeds exactly when both steps do. -/
theorem except_bind_ok {ε α β : Type} {x : Except ε α} {f : α → Except ε β}
    {b : β} : Except.bind x f = .ok b ↔ ∃ a, x = .ok a ∧ f a = .ok b := by
  cases x with
  | error e => simp [Except.bind]
  | ok a => simp [Except.bind]

/-- Inversion of a successful `get_result` call: the temporal check
passed, a selection was built on the resolved set ids, a workflow was
assembled and the engine evaluated it. -/
theorem get_result_ok_inversion (builder : Builder) (engine : Engine)
    (model : ModelInfo) (base_name : String) (location : Location)
    (category : ResultCategory) (a : GetResultArgs) (out : ResultOutcome)
    (hout : get_result builder engine model base_name location category a = .ok out) :
    ¬ temporal_tot a > 1 ∧
    ∃ built wf fc,
      build_selection a
        (if (if temporal_tot a = 0 then IntsArg.single 1 else a.set_ids).isTruthy
          then (if temporal_tot a = 0 then IntsArg.single 1 else a.set_ids)
          else a.modes) = .ok built ∧
      builder model base_name location category a built = .ok wf ∧
      engine wf = .ok fc ∧
      out = { built := built, workflow := wf, fields_container := fc } := by
  unfold get_result at hout
  by_cases ht : temporal_tot a > 1
  · rw [if_pos ht] at hout
    cases hout
  · rw [if_neg ht] at hout
    obtain ⟨built, hb, hout⟩ := except_bind_ok.mp hout
    obtain ⟨wf, hw, hout⟩ := except_bind_ok.mp hout
    obtain ⟨fc, hf, hout⟩ := except_bind_ok.mp hout
    refine ⟨ht, built, wf, fc, hb, hw, hf, ?_⟩
    exact (Except.ok.inj hout).symm

/-- Inversion of a successful `_build_selection`: the spatial check
passed and the built selection records the resolved criteria. -/
theorem build_selection_ok_inversion (a : GetResultArgs) (si : IntsArg)
    (built : BuiltSelection) (hb : build_selection a si = .ok built) :
    ¬ spatial_tot a > 1 ∧
    built = { spatial := spatial_resolution_of a
            , temporal :=
                if a.all_sets then .allSets
                else if a.selection.isSome then .fromSelection
                else if a.frequencies.isNotNone then .times a.frequencies
                else .setIds si
            , outputs_mesh := a.skin.requested || a.external_layer.requested } := by
  unfold build_selection at hb
  by_cases hs : spatial_tot a > 1
  · rw [if_pos hs] at hb
    cases hb
  · rw [if_neg hs] at hb
    exact ⟨hs, (Except.ok.inj hb).symm⟩

/-- Inversion of `_get_result_workflow`: the assembled workflow records
the extraction parameters and the wiring. -/
theorem get_result_workflow_ok_inversion (model : ModelInfo)
    (base_name : String) (location : Location) (category : ResultCategory)
    (a : GetResultArgs) (built : BuiltSelection) (wf : WorkflowModel)
    (hw : get_result_workflow model base_name location category a built = .ok wf) :
    wf = { base_name := base_name, location := location, category := category
         , norm := a.norm
         , cyclic := connect_cyclic_inputs model a.expand_cyclic a.phase_angle_cyclic
         , mesh_reduction := mesh_reduction_of a } := by
  unfold get_result_workflow at hw
  exact (Except.ok.inj hw).symm

/-! ### Theorems -/

/-- C1: on every result-query call, if more than one of the time-like
arguments `set_ids`, `all_sets`, `frequencies`, `modes` and `selection` is
supplied with a non-default value, `_get_result` raises ValueError with
the message listing the arguments `all_sets`, `selection`, `set_ids`,
`frequencies` and `modes` as mutually exclusive — and it does so for every
workflow builder and every engine, i.e. eagerly during validation, before
any workflow is assembled and before the engine is invoked. -/
theorem get_result_temporal_exclusive
    (builder : Builder) (engine : Engine) (model : ModelInfo)
    (base_name : String) (location : Location) (category : ResultCategory)
    (a : GetResultArgs) (h : temporal_tot a > 1) :
    get_result builder engine model base_name location category a =
      .error (.valueError temporal_exclusive_msg) := by
  unfold get_result
  simp [h]

/-- Witness for C1: with both `set_ids=[2]` and `all_sets=True` supplied,
the call raises the temporal-exclusivity ValueError. -/
theorem get_result_temporal_exclusive_witness :
    temporal_tot { GetResultArgs.defaults with
        set_ids := .list [2], all_sets := true } > 1 ∧
    get_result get_result_workflow engine0 model_plain "U" Location.nodal
        ResultCategory.vector
        { GetResultArgs.defaults with set_ids := .list [2], all_sets := true } =
      .error (.valueError temporal_exclusive_msg) :=
  ⟨by decide,
   get_result_temporal_exclusive get_result_workflow engine0 model_plain "U"
     Location.nodal ResultCategory.vector _ (by decide)⟩

/-- C2: on every result-query call, supplying more than one of the
spatial arguments `node_ids`, `element_ids`, `named_selections` and
`selection` never returns a DataFrame, and (whenever the time-like
arguments are not themselves in conflict, which is checked first) raises
ValueError with the message listing the spatial group — for every builder
and engine, i.e. before assembly and execution. -/
theorem get_result_spatial_exclusive
    (builder : Builder) (engine : Engine) (model : ModelInfo)
    (base_name : String) (location : Location) (category : ResultCategory)
    (a : GetResultArgs) (h : spatial_tot a > 1) :
    (∀ out, get_result builder engine model base_name location category a ≠ .ok out) ∧
    (temporal_tot a ≤ 1 →
      get_result builder engine model base_name location category a =
        .error (.valueError spatial_exclusive_msg)) := by
  constructor
  · intro out hout
    obtain ⟨-, built, -, -, hb, -⟩ :=
      get_result_ok_inversion builder engine model base_name location category
        a out hout
    exact absurd h (build_selection_ok_inversion a _ built hb).1
  · intro ht
    have ht2 : ¬ temporal_tot a > 1 := by omega
    unfold get_result build_selection
    simp [ht2, h, Except.bind]

/-- Witness for C2: with both `node_ids=[1]` and `element_ids=[2]`
supplied, the call raises the spatial-exclusivity ValueError. -/
theorem get_result_spatial_exclusive_witness :
    spatial_tot { GetResultArgs.defaults with
        node_ids := some [1], element_ids := some [2] } > 1 ∧
    temporal_tot { GetResultArgs.defaults with
        node_ids := some [1], element_ids := some [2] } ≤ 1 ∧
    get_result get_result_workflow engine0 model_plain "U" Location.nodal
        ResultCategory.vector
        { GetResultArgs.defaults with node_ids := some [1], element_ids := some [2] } =
      .error (.valueError spatial_exclusive_msg) :=
  ⟨by decide, by decide,
   (get_result_spatial_exclusive get_result_workflow engine0 model_plain "U"
     Location.nodal ResultCategory.vector _ (by decide)).2 (by decide)⟩

/-- C3 counterexample: on the two-stage cyclic model, a result query with
the flat sector list `expand_cyclic=[1, 2, 3]` does NOT raise ValueError —
it succeeds (the doctests of `displacement` at
`modal_mechanical_simulation.py:504-517` demonstrate exactly this call
succeeding on a multi-stage model). -/
theorem expand_cyclic_flat_multistage_no_valueerror :
    raisesValueError (get_result get_result_workflow engine0 model_cyclic2 "U"
        Location.nodal ResultCategory.vector args_expand_flat) = false ∧
    resultIsOk (get_result get_result_workflow engine0 model_cyclic2 "U"
        Location.nodal ResultCategory.vector args_expand_flat) = true := by
  decide

/-- C3 as amended: on a two-stage cyclic model,
`expand_cyclic=[[1, 2], [1, 2]]` succeeds and wires one sector scoping per
stage, and `expand_cyclic=[1, 2, 3]` (flat) also succeeds — interpreted as
a flat list of sector numbers (the in-source doctest reads them as sectors
of the first stage) — with no ValueError raised for either shape. -/
theorem expand_cyclic_multistage_amended :
    resultIsOk (get_result get_result_workflow engine0 model_cyclic2 "U"
        Location.nodal ResultCategory.vector args_expand_nested) = true ∧
    resultIsOk (get_result get_result_workflow engine0 model_cyclic2 "U"
        Location.nodal ResultCategory.vector args_expand_flat) = true ∧
    (connect_cyclic_inputs model_cyclic2
        (.list [.list [1, 2], .list [1, 2]]) Option.none).sectors_to_expand =
      some (.perStage [[1, 2], [1, 2]]) ∧
    (connect_cyclic_inputs model_cyclic2
        (.list [.int 1, .int 2, .int 3]) Option.none).sectors_to_expand =
      some (.flat [1, 2, 3]) ∧
    raisesValueError (get_result get_result_workflow engine0 model_cyclic2 "U"
        Location.nodal ResultCategory.vector args_expand_nested) = false := by
  decide

/-- C4: on every result-query call in which none of `set_ids`,
`all_sets`, `frequencies`, `modes` and `selection` is supplied, every
successful outcome carries the time-like request "set ids = 1": exactly
the first available set/mode is requested (lines 237-238 of the source set
`set_ids = 1` when the count of supplied time-like arguments is zero). -/
theorem get_result_defaults_to_first_set
    (builder : Builder) (engine : Engine) (model : ModelInfo)
    (base_name : String) (location : Location) (category : ResultCategory)
    (a : GetResultArgs) (h : temporal_tot a = 0) :
    ∀ out, get_result builder engine model base_name location category a = .ok out →
      out.built.temporal = .setIds (.single 1) := by
  intro out hout
  have hparts := h
  simp only [temporal_tot, Nat.add_eq_zero, Bool.toNat_eq_zero] at hparts
  obtain ⟨⟨⟨⟨h1, h2⟩, h3⟩, h4⟩, h5⟩ := hparts
  obtain ⟨-, built, wf, fc, hb, -, -, hrec⟩ :=
    get_result_ok_inversion builder engine model base_name location category
      a out hout
  rw [h] at hb
  norm_num [IntsArg.isTruthy] at hb
  obtain ⟨-, hbuilt⟩ := build_selection_ok_inversion a _ built hb
  rw [hrec]
  rw [hbuilt]
  simp [h2, h5, h3]

/-- Witness for C4: a fully default call on a plain model succeeds and
its outcome records the time-like request "set ids = 1". -/
theorem get_result_defaults_to_first_set_witness :
    temporal_tot GetResultArgs.defaults = 0 ∧
    (get_result get_result_workflow engine0 model_plain "U" Location.nodal
        ResultCategory.vector GetResultArgs.defaults).map
      (fun out => out.built.temporal) = .ok (.setIds (.single 1)) := by
  have hout : get_result get_result_workflow engine0 model_plain "U"
      Location.nodal ResultCategory.vector GetResultArgs.defaults =
      .ok { built := { spatial := .wholeMesh, temporal := .setIds (.single 1)
                     , outputs_mesh := false }
          , workflow := { base_name := "U", location := .nodal
                        , category := .vector, norm := false
                        , cyclic := { read_cyclic := Option.none
                                    , sectors_to_expand := Option.none
                                    , phase_angle := Option.none }
                        , mesh_reduction := Option.none }
          , fields_container := { fields := [1] } } := by decide
  have hreq := get_result_defaults_to_first_set get_result_workflow engine0
    model_plain "U" Location.nodal ResultCategory.vector
    GetResultArgs.defaults (by decide) _ hout
  refine ⟨by decide, ?_⟩
  rw [hout]
  simp [Except.map, hreq]

/-- C5 counterexample: on the two-stage cyclic model, `displacement`
called with `skin=True` under the default `expand_cyclic=True` — exactly
the combination the claim says must raise — does NOT raise
ConfigurationError: the call succeeds.  The in-source example
`examples/02-Cyclic-examples/04-cyclic-mesh-skin.py` (lines 50 and 83-89)
runs this combination on a cyclic modal analysis, and no
ConfigurationError class exists anywhere in the sources. -/
theorem skin_cyclic_no_configuration_error :
    raisesConfigurationError (get_result get_result_workflow engine0
        model_cyclic2 "U" Location.nodal ResultCategory.vector args_skin_true) =
      false ∧
    resultIsOk (get_result get_result_workflow engine0 model_cyclic2 "U"
        Location.nodal ResultCategory.vector args_skin_true) = true := by
  decide

/-- C5 as amended: requesting a mesh reduction (`skin`) together with
cyclic expansion on a cyclic-symmetric model raises nothing — the call
succeeds with both requested options wired into the workflow: the
mesh-reduction stage records the skin request, the cyclic wiring keeps
expansion on (read-cyclic pin 3), and the built selection flags the
companion reduced-mesh output.  Neither option is silently dropped, but no
ConfigurationError is raised. -/
theorem skin_cyclic_both_recorded :
    (get_result get_result_workflow engine0 model_cyclic2 "U" Location.nodal
        ResultCategory.vector args_skin_true).map
      (fun out => (out.workflow.mesh_reduction, out.workflow.cyclic.read_cyclic,
        out.built.outputs_mesh)) =
      .ok (some (.skinOf (.bool true)), some 3, true) := by
  decide

/-- C6: when `load_solution` is called without explicit `physics_type` and
`analysis_type` and reading both from the data sources fails, the call
does not raise: it prints the two console warnings and falls back to
physics `mecanic` and analysis `static`, returning the static mechanical
solution built on those hardcoded defaults. -/
theorem load_solution_detection_fallback (info : ResultInfoModel)
    (hp : info.physics_type = Option.none)
    (ha : info.analysis_type = Option.none) :
    load_solution info Option.none Option.none =
      { printed_warnings := [physics_warning_msg, analysis_warning_msg]
      , result := .ok SolutionKind.staticAnalysis } := by
  obtain ⟨p, t⟩ := info
  simp only at hp ha
  subst hp ha
  rfl

/-- Witness for C6: the concrete data source whose physics and analysis
types cannot be read yields the warned static fallback. -/
theorem load_solution_detection_fallback_witness :
    (⟨Option.none, Option.none⟩ : ResultInfoModel).physics_type = Option.none ∧
    load_solution ⟨Option.none, Option.none⟩ Option.none Option.none =
      { printed_warnings := [physics_warning_msg, analysis_warning_msg]
      , result := .ok SolutionKind.staticAnalysis } :=
  ⟨rfl, load_solution_detection_fallback ⟨Option.none, Option.none⟩ rfl rfl⟩

/-- C7: evaluating a selection built with `select_nodes([a, b, c])`, for
node ids that exist in the mesh, yields a Scoping whose id set equals the
given ids exactly (order-insensitively, with no extra or missing ids) and
whose location tag is nodal. -/
theorem select_nodes_evaluate_roundtrip (ids : List Int) (sim : SimulationModel)
    (_h : ∀ i ∈ ids, i ∈ sim.mesh.node_ids) :
    ∃ sc : Scoping,
      (SpatialSelection.empty.select_nodes ids).bind
          (fun s => s.evaluate_on sim) = .ok sc ∧
      sc.location = Location.nodal ∧
      (∀ x : Int, x ∈ sc.ids ↔ x ∈ ids) :=
  ⟨{ ids := ids, location := .nodal }, rfl, rfl, fun _ => Iff.rfl⟩

/-- Witness for C7: selecting nodes 1, 2, 3 of a mesh containing nodes
1 to 4 round-trips to the nodal scoping on exactly those ids. -/
theorem select_nodes_evaluate_roundtrip_witness :
    (∀ i ∈ ([1, 2, 3] : List Int),
        i ∈ (⟨⟨[1, 2, 3, 4], [], []⟩⟩ : SimulationModel).mesh.node_ids) ∧
    (∃ sc : Scoping,
      (SpatialSelection.empty.select_nodes [1, 2, 3]).bind
          (fun s => s.evaluate_on ⟨⟨[1, 2, 3, 4], [], []⟩⟩) = .ok sc ∧
      sc.location = Location.nodal ∧
      (∀ x : Int, x ∈ sc.ids ↔ x ∈ ([1, 2, 3] : List Int))) :=
  ⟨by decide,
   select_nodes_evaluate_roundtrip [1, 2, 3] ⟨⟨[1, 2, 3, 4], [], []⟩⟩ (by decide)⟩

/-- C8: every public result-extraction method of the modal simulation
facade has `expand_cyclic` defaulting to `True` and forwards it to
`_get_result`, so that on a cyclic-symmetric model a call that does not
mention `expand_cyclic` produces the cyclically expanded result (the
read-cyclic pin of every successful outcome is wired to 3). -/
theorem modal_methods_default_expand_cyclic :
    ∀ m ∈ modal_result_methods,
      m.expand_cyclic_default = ExpandCyclic.bool true ∧
      ∀ (engine : Engine) (model : ModelInfo), model.is_cyclic = true →
        ∀ out, get_result get_result_workflow engine model m.base_name
            m.location m.category (default_args_of m) = .ok out →
          out.workflow.cyclic.read_cyclic = some 3 := by
  intro m hm
  have hall : modal_result_methods.all
      (fun mm => decide (mm.expand_cyclic_default = ExpandCyclic.bool true)) = true := by
    decide
  have hd : m.expand_cyclic_default = ExpandCyclic.bool true :=
    of_decide_eq_true (List.all_eq_true.mp hall m hm)
  refine ⟨hd, ?_⟩
  intro engine model hcy out hout
  have hargs : (default_args_of m).expand_cyclic = ExpandCyclic.bool true := by
    unfold default_args_of
    exact hd
  obtain ⟨-, built, wf, fc, -, hw, -, hrec⟩ :=
    get_result_ok_inversion get_result_workflow engine model m.base_name
      m.location m.category (default_args_of m) out hout
  have hwf := get_result_workflow_ok_inversion model m.base_name
    m.location m.category (default_args_of m) built wf hw
  rw [hrec]
  rw [hwf]
  rw [hargs]
  simp [connect_cyclic_inputs, hcy, ExpandCyclic.isNotFalse]

/-- Witness for C8: the `displacement` method with its defaults, on the
cyclic model with the always-succeeding engine, yields the expanded
result. -/
theorem modal_methods_default_expand_cyclic_witness :
    (⟨"displacement", "U", .nodal, .vector, .bool true⟩ : ModalMethod) ∈
      modal_result_methods ∧
    (⟨"displacement", "U", .nodal, .vector, .bool true⟩
      : ModalMethod).expand_cyclic_default = ExpandCyclic.bool true := by
  have hmem : (⟨"displacement", "U", .nodal, .vector, .bool true⟩ : ModalMethod) ∈
      modal_result_methods := by
    unfold modal_result_methods
    exact List.mem_cons_self _ _
  exact ⟨hmem, (modal_methods_default_expand_cyclic _ hmem).1⟩

/-- C9: for every DataFrame, when `animate(deform=True)` fails to retrieve
the displacement field — including when the parent-simulation weak
reference has expired or was never set — the call emits exactly one
UserWarning and proceeds with a non-deformed animation (`deform_by` stays
`None`); the failed lookup never escapes as an exception. -/
theorem dataframe_animate_degrades (df : DataFrameModel) (e : PyError)
    (h : dataframe_lookup_deform_by df = .error e) :
    dataframe_animate df true =
      { deform_by := Option.none
      , emitted_warnings := [animate_warning_msg e] } := by
  simp [dataframe_animate, h]

/-- Witness for C9: a DataFrame whose parent simulation was never set
warns and animates without deformation. -/
theorem dataframe_animate_degrades_witness :
    dataframe_lookup_deform_by
        ⟨⟨[1]⟩, Option.none, Option.none, Option.none⟩ =
      .error (.attributeError
        "DataFrame object has no attribute parent simulation") ∧
    dataframe_animate ⟨⟨[1]⟩, Option.none, Option.none, Option.none⟩ true =
      { deform_by := Option.none
      , emitted_warnings := [animate_warning_msg (.attributeError
          "DataFrame object has no attribute parent simulation")] } :=
  ⟨rfl, dataframe_animate_degrades _ _ rfl⟩

/-- C10: the DataFrame constructor raises ValueError (naming the type of
the rejected value) for every `data` argument that is not a
FieldsContainer instance — including the default `None` — so every
successfully constructed DataFrame holds a FieldsContainer and its length
equals the length of that container. -/
theorem dataframe_init_requires_fields_container
    (data : PyDataArg) (p : Option AnimSimulation)
    (i : Option (List Int)) (c : Option (List String)) :
    (data.is_fields_container = false →
      dataframe_init data p i c =
        .error (.valueError (dataframe_type_error_msg data))) ∧
    (∀ df, dataframe_init data p i c = .ok df →
      data = .fields_container df.fc ∧ dataframe_len df = df.fc.fields.length) := by
  constructor
  · intro h
    cases data with
    | fields_container fc => simp [PyDataArg.is_fields_container] at h
    | py_none => rfl
    | other ty => rfl
  · intro df hdf
    cases data with
    | fields_container fc =>
      refine ⟨?_, rfl⟩
      unfold dataframe_init at hdf
      simp only [Except.ok.injEq] at hdf
      rw [← hdf]
    | py_none => exact absurd hdf (by simp [dataframe_init])
    | other ty => exact absurd hdf (by simp [dataframe_init])

/-- Witness for C10: the default `data=None` is rejected with the
ValueError naming `NoneType`, and a DataFrame built on a two-field
container has length 2. -/
theorem dataframe_init_requires_fields_container_witness :
    PyDataArg.py_none.is_fields_container = false ∧
    dataframe_init PyDataArg.py_none Option.none Option.none Option.none =
      .error (.valueError (dataframe_type_error_msg PyDataArg.py_none)) ∧
    dataframe_len ⟨⟨[7, 8]⟩, Option.none, Option.none, Option.none⟩ = 2 :=
  ⟨rfl,
   (dataframe_init_requires_fields_container PyDataArg.py_none Option.none
     Option.none Option.none).1 rfl,
   rfl⟩

end PydpfPost
